import Mathlib

/-!
Shallow embedding of `src/extractor/basic_logger.py` (the Activity-Tracker
recording/rotation/upload coordinator) and proofs about its operations.

Python dictionaries are modelled as association lists in insertion order
(`Dict`), JSON scalar values by the inductive `JValue`, the filesystem of
log segments by an association list from paths to lists of written lines
(`Disk`), wall-clock time by rationals (seconds, as `time.time()` returns),
and the `ActivityObserver` object's mutable attributes by the structure
`ObserverState`.  Each Python method becomes a state-passing function; the
inputs a method obtains from the outside world (clock readings, fresh
UUIDs, HTTP responses, the foreground-window query) become explicit
parameters.
-/

namespace ActivityTracker

/-- Scalar JSON values appearing in event payloads and window snapshots. -/
inductive JValue where
  | s (v : String)
  | n (v : Int)
  | b (v : Bool)
  | null
deriving DecidableEq, Repr

/-- A Python dict in insertion order: keys with their values. -/
abbrev Dict := List (String × JValue)

/-- Lookup of a key in a dict (first binding wins, as keys are unique). -/
def dictGet : Dict → String → Option JValue
  | [], _ => none
  | kv :: d, k => if kv.1 = k then some kv.2 else dictGet d k

/-- Python `\x7b**a, **b\x7d`: the keys of `a` in order, each taking `b`'s
value when `b` also binds the key, followed by the keys of `b` not in `a`,
in `b`'s order. -/
def pyUpdate (a b : Dict) : Dict :=
  a.map (fun kv => (kv.1, (dictGet b kv.1).getD kv.2)) ++
    b.filter (fun kv => (dictGet a kv.1).isNone)

/-- JSON string escaping as `json.dumps` performs it on the characters we
model: backslash and double quote are escaped, everything else is copied. -/
def jsonEscape (s : String) : String :=
  s.data.foldl
    (fun acc c =>
      if c = '\\' then acc ++ "\\\\"
      else if c = '"' then acc ++ "\\\""
      else acc.push c) ""

/-- Rendering of a scalar value as `json.dumps` renders it. -/
def JValue.render : JValue → String
  | .s v => "\"" ++ jsonEscape v ++ "\""
  | .n v => toString v
  | .b true => "true"
  | .b false => "false"
  | .null => "null"

/-- Rendering of a dict as a JSON object, `json.dumps` default separators. -/
def Dict.render (d : Dict) : String :=
  "\x7b" ++ String.intercalate ", "
    (d.map (fun kv => "\"" ++ jsonEscape kv.1 ++ "\": " ++ kv.2.render)) ++ "\x7d"

/-- The `Event` dataclass of `basic_logger.py`. -/
structure Event where
  session_id : String
  timestamp : String
  event_type : String
  data : Dict
deriving DecidableEq, Repr

/-- `Event.to_json`: `json.dumps(asdict(self))`, fields in declaration
order as `asdict` preserves it. -/
def Event.to_json (e : Event) : String :=
  "\x7b\"session_id\": " ++ JValue.render (.s e.session_id) ++
    ", \"timestamp\": " ++ JValue.render (.s e.timestamp) ++
    ", \"event_type\": " ++ JValue.render (.s e.event_type) ++
    ", \"data\": " ++ Dict.render e.data ++ "\x7d"

/-- The `SessionMetadata` dataclass. -/
structure SessionMetadata where
  session_id : String
  start_time_utc : String
  hostname : String
  username : String
  os : String
  output_file : String
deriving DecidableEq, Repr

/-- A filesystem of text files: path to the list of lines written so far
(each entry one `write` call's string, newline included). -/
abbrev Disk := List (String × List String)

/-- Content of the file at `p`, `none` when no such file exists. -/
def diskGet : Disk → String → Option (List String)
  | [], _ => none
  | e :: d, p => if e.1 = p then some e.2 else diskGet d p

/-- Opening in append mode creates the file empty when it is missing and
leaves an existing file untouched. -/
def diskEnsure (d : Disk) (p : String) : Disk :=
  if (diskGet d p).isSome then d else d ++ [(p, [])]

/-- Appending one written string to the file at `p`. -/
def diskAppend : Disk → String → String → Disk
  | [], _, _ => []
  | e :: d, p, line =>
      (if e.1 = p then (e.1, e.2 ++ [line]) else e) :: diskAppend d p line

/-- Deleting the file at `p` (`Path.unlink`). -/
def diskErase : Disk → String → Disk
  | [], _ => []
  | e :: d, p => if e.1 = p then diskErase d p else e :: diskErase d p

/-- The configurable fields of `ActivityObserver` that the modelled
operations read.  Times are rationals in the unit the Python code uses at
each site (`mouse_throttle_ms` in milliseconds, clock readings in
seconds). -/
structure ObserverConfig where
  output_logs_dir : String := "./activity/logs"
  output_screenshots_dir : String := "./activity/screenshots"
  upload_interval_seconds : ℚ := 30
  backend_url : String := "http://localhost:8000/generate-upload-url"
  mouse_throttle_ms : ℚ := 250
  window_poll_interval : ℚ := 1
deriving DecidableEq, Repr

/-- An open or closed handle on a log segment (`self._log_file`): closing
a Python file object does not null the attribute that references it, so
the model keeps the reference with an `isOpen` flag. -/
structure FileHandle where
  path : String
  isOpen : Bool
deriving DecidableEq, Repr

/-- The mutable attributes of one `ActivityObserver` instance, plus the
disk holding its log segments. -/
structure ObserverState where
  is_recording : Bool
  event_count : Nat
  session : Option SessionMetadata
  log_file : Option FileHandle
  current_window : Dict
  last_mouse_time : ℚ
  last_cursor_pos : Int × Int
  disk : Disk
deriving DecidableEq, Repr

/-- The attribute defaults of a freshly constructed `ActivityObserver`. -/
def initState : ObserverState :=
  { is_recording := false
    event_count := 0
    session := none
    log_file := none
    current_window := []
    last_mouse_time := 0
    last_cursor_pos := (0, 0)
    disk := [] }

/-- Path of the segment file `output_logs_dir / f"session_\x7bid\x7d.jsonl"`. -/
def segmentPath (cfg : ObserverConfig) (id : String) : String :=
  cfg.output_logs_dir ++ "/session_" ++ id ++ ".jsonl"

namespace ActivityObserver

/-- `ActivityObserver._write_event(event_type, payload)`.  `ts` is the
`_utc_now()` reading taken while holding the lock.  Not recording: return
immediately.  Recording: build the `Event` merging `payload` with
`self._current_window`, append its JSON line to the open log file, and
increment the counter.  (While recording, `session` and `log_file` are
always set — the invariant proved below — so the defensive fallthrough
branch is unreachable from `initState`.) -/
def write_event (ts event_type : String) (payload : Dict)
    (st : ObserverState) : ObserverState :=
  if st.is_recording then
    match st.session, st.log_file with
    | some sess, some h =>
      let event : Event :=
        { session_id := sess.session_id
          timestamp := ts
          event_type := event_type
          data := pyUpdate payload st.current_window }
      { st with
        disk := diskAppend st.disk h.path (event.to_json ++ "\n")
        event_count := st.event_count + 1 }
    | _, _ => st
  else st

/-- `ActivityObserver.start()`.  `sid` is the fresh `uuid.uuid4()` value,
`startTime`/`host`/`user`/`osd` the clock and host-identity readings.
No-op when already recording; otherwise install a new session, open its
segment file in append mode, flip to recording and zero the counter.
`current_window`, `last_mouse_time` and `last_cursor_pos` are untouched. -/
def start (cfg : ObserverConfig) (sid startTime host user osd : String)
    (st : ObserverState) : ObserverState :=
  if st.is_recording then st
  else
    let path := segmentPath cfg sid
    { st with
      session := some
        { session_id := sid
          start_time_utc := startTime
          hostname := host
          username := user
          os := osd
          output_file := path }
      disk := diskEnsure st.disk path
      log_file := some { path := path, isOpen := true }
      is_recording := true
      event_count := 0 }

/-- `ActivityObserver.stop()`.  No-op when not recording; otherwise flip
to stopped and close the log file when one is referenced.  The attribute
keeps referencing the (closed) file object: the Python code never assigns
`self._log_file = None`. -/
def stop (st : ObserverState) : ObserverState :=
  if st.is_recording then
    { st with
      is_recording := false
      log_file := st.log_file.map (fun h => { h with isOpen := false }) }
  else st

/-- Outcomes of the two HTTP calls and the JSON field access inside
`_upload_file`: `.error ()` models a raised exception, `.ok` the value. -/
structure UploadEnv where
  postResult : Except Unit Nat
  uploadUrl : Except Unit String
  putResult : Except Unit Nat
deriving Repr

/-- Body of the `try` block of `_upload_file` after the existence check:
request the presigned URL, abandon on a non-200 status, otherwise read
the URL out of the response body, transfer, and delete the local file
exactly when the transfer status is 200. -/
def upload_body (env : UploadEnv) (d : Disk) (p : String) :
    Except Unit Disk := do
  let postStatus ← env.postResult
  if postStatus ≠ 200 then return d
  else
    let _url ← env.uploadUrl
    let putStatus ← env.putResult
    if putStatus = 200 then return diskErase d p else return d

/-- `ActivityObserver._upload_file(file_path)`: return unchanged when the
file does not exist; otherwise run the body with every raised exception
caught (`except Exception`), leaving the disk unchanged on failure. -/
def upload_file (env : UploadEnv) (d : Disk) (p : String) : Disk :=
  if (diskGet d p).isSome then
    match upload_body env d p with
    | .ok d2 => d2
    | .error _ => d
  else d

/-- One iteration of the `_upload_scheduler` loop.  `stopDuringWait` is
whether `self._stop_event.wait(upload_interval_seconds)` returned true
(the loop then breaks with no rotation); a tick while not recording is
skipped.  Otherwise, under the lock: remember the current output file,
close it, open a brand-new segment named by the fresh uuid `newId` and
publish it as `session.output_file`; then, outside the lock, run
`_upload_file` on the old path with outcomes `env`. -/
def upload_tick (cfg : ObserverConfig) (stopDuringWait : Bool)
    (newId : String) (env : UploadEnv) (st : ObserverState) : ObserverState :=
  if stopDuringWait then st
  else if st.is_recording then
    match st.session with
    | some sess =>
      let oldPath := sess.output_file
      let newPath := segmentPath cfg newId
      let rotated : ObserverState :=
        { st with
          session := some { sess with output_file := newPath }
          log_file := some { path := newPath, isOpen := true }
          disk := diskEnsure st.disk newPath }
      { rotated with disk := upload_file env rotated.disk oldPath }
    | none => st
  else st

/-- `ActivityObserver._on_mouse_move(x, y)`.  `now` is the `time.time()`
reading, `ts` the `_utc_now()` reading a write would use.  The cursor
position is stored unconditionally; the move is dropped when fewer than
`mouse_throttle_ms` milliseconds have passed since the last accepted
move, and otherwise accepted: the throttle clock is reset to `now` and
the event written. -/
def on_mouse_move (cfg : ObserverConfig) (now : ℚ) (ts : String)
    (x y : Int) (st : ObserverState) : ObserverState :=
  let st1 := { st with last_cursor_pos := (x, y) }
  if (now - st1.last_mouse_time) * 1000 < cfg.mouse_throttle_ms then st1
  else
    write_event ts "mouse_move" [("x", .n x), ("y", .n y)]
      { st1 with last_mouse_time := now }

/-- `ActivityObserver._on_mouse_click(x, y, button, pressed)`: always
writes, no throttle, no cursor update. -/
def on_mouse_click (ts : String) (x y : Int) (button : String)
    (pressed : Bool) (st : ObserverState) : ObserverState :=
  write_event ts "mouse_click"
    [("x", .n x), ("y", .n y), ("button", .s button),
     ("action", .s (if pressed then "pressed" else "released"))] st

/-- `ActivityObserver._on_mouse_scroll(x, y, dx, dy)`: always writes. -/
def on_mouse_scroll (ts : String) (x y dx dy : Int)
    (st : ObserverState) : ObserverState :=
  write_event ts "mouse_scroll"
    [("x", .n x), ("y", .n y), ("dx", .n dx), ("dy", .n dy)] st

/-- `ActivityObserver._on_key_press(key)` with the key already normalized
to the string the handler derives (`key.char` or `str(key)`). -/
def on_key_press (ts key_str : String) (st : ObserverState) : ObserverState :=
  write_event ts "key_press" [("key", .s key_str)] st

end ActivityObserver

/-- Outcome of one `gw.getActiveWindow()` call: an active window with its
title and geometry, a `None` return, or a raised exception. -/
inductive WinQuery where
  | found (title : String) (width height : Int)
  | noneActive
  | raised
deriving DecidableEq, Repr

/-- The all-null snapshot written when `getActiveWindow()` returns `None`. -/
def nullWindow : Dict :=
  [("window_title", .null), ("window_width", .null), ("window_height", .null)]

/-- Body of one iteration of `_window_monitor_loop`: on a window, replace
the snapshot with its title/width/height; on a `None` return, replace it
with the all-null dict; on a raised exception the `except Exception: pass`
falls through with the snapshot untouched. -/
def window_monitor_step (q : WinQuery) (cur : Dict) : Dict :=
  match q with
  | .found t w h =>
      [("window_title", .s t), ("window_width", .n w), ("window_height", .n h)]
  | .noneActive => nullWindow
  | .raised => cur

/-- A wall-clock reading as `datetime.now()` exposes it, with the
sub-second part that `strftime("%Y%m%d_%H%M%S")` discards. -/
structure WallClock where
  year : Nat
  month : Nat
  day : Nat
  hour : Nat
  minute : Nat
  second : Nat
  micros : Nat
deriving DecidableEq, Repr

/-- Zero-padding to two digits, as `strftime` renders `%m %d %H %M %S`. -/
def pad2 (n : Nat) : String :=
  if n < 10 then "0" ++ toString n else toString n

/-- Zero-padding to four digits, as `strftime` renders `%Y`. -/
def pad4 (n : Nat) : String :=
  if n < 10 then "000" ++ toString n
  else if n < 100 then "00" ++ toString n
  else if n < 1000 then "0" ++ toString n
  else toString n

/-- `datetime.now().strftime("%Y%m%d_%H%M%S")`: second resolution, the
sub-second field plays no part. -/
def strftime_compact (t : WallClock) : String :=
  pad4 t.year ++ pad2 t.month ++ pad2 t.day ++ "_" ++
    pad2 t.hour ++ pad2 t.minute ++ pad2 t.second

/-- The output path `_take_screenshot` builds for the capture at `t`. -/
def screenshot_filename (cfg : ObserverConfig) (t : WallClock) : String :=
  cfg.output_screenshots_dir ++ "/screenshot_" ++ strftime_compact t ++ ".png"

/-- Truncation of a clock reading to the second, the information that
survives into the filename. -/
def truncToSecond (t : WallClock) : WallClock :=
  { t with micros := 0 }

/-- A monitor rectangle as `mss` enumerates it. -/
structure Monitor where
  left : Int
  top : Int
  width : Int
  height : Int
deriving DecidableEq, Repr

/-- The containment test `_take_screenshot` applies to each monitor. -/
def monitorContains (m : Monitor) (c : Int × Int) : Bool :=
  decide (m.left ≤ c.1) && decide (c.1 < m.left + m.width) &&
    decide (m.top ≤ c.2) && decide (c.2 < m.top + m.height)

/-- Monitor selection in `_take_screenshot`: the first of `monitors[1:]`
containing the cursor, else the fallback `monitors[0]` (the virtual
all-monitors entry). -/
def select_monitor (monitors : List Monitor) (c : Int × Int) : Option Monitor :=
  match (monitors.drop 1).find? (fun m => monitorContains m c) with
  | some m => some m
  | none => monitors.head?

/-- The screenshot directory as a mapping from filename to image content
(abstracted to a `Nat` identifier).  `mss.tools.to_png(..., output=f)`
truncates and rewrites an existing file, so saving replaces any previous
content at the same name. -/
abbrev ShotStore := List (String × Nat)

/-- Lookup of the stored image at a filename. -/
def shotGet (s : ShotStore) (name : String) : Option Nat :=
  (s.find? (fun e => e.1 = name)).map (fun e => e.2)

/-- Saving a capture: overwrite whatever the filename previously held. -/
def save_screenshot (s : ShotStore) (name : String) (img : Nat) : ShotStore :=
  (s.filter (fun e => e.1 ≠ name)) ++ [(name, img)]

/-- One window of `_screenshot_scheduler`, started at `hour_start` with
the raw `random.sample(range(20), 4)` draw `sample` and an optional time
`stopAt` at which `self._stop_event` becomes set.  The draw is sorted
ascending, each capture fires when its offset elapses, and without a stop
the loop then sleeps out the remainder of the 20-second window.  Returns
the capture instants and the time at which the next window may begin.
Every sleep is `self._stop_event.wait(...)`, so a stop at `s` suppresses
every capture not strictly before `s` and ends the window by `s`. -/
def scheduler_window (sample : List Nat) (hour_start : ℚ)
    (stopAt : Option ℚ) : List ℚ × ℚ :=
  let random_times := sample.insertionSort (· ≤ ·)
  let targets := random_times.map (fun o : ℕ => hour_start + (o : ℚ))
  match stopAt with
  | none => (targets, hour_start + 20)
  | some s =>
      (targets.filter (fun t => t < s), min (hour_start + 20) (max hour_start s))

/-- The externally supplied inputs of one observer operation: everything
the Python methods read from clocks, uuid generation, HTTP, the input
hooks and the window query. -/
inductive Op where
  | opStart (sid startTime host user osd : String)
  | opStop
  | uploadTick (stopDuringWait : Bool) (newId : String)
      (env : ActivityObserver.UploadEnv)
  | mouseMove (now : ℚ) (ts : String) (x y : Int)
  | mouseClick (ts : String) (x y : Int) (button : String) (pressed : Bool)
  | mouseScroll (ts : String) (x y dx dy : Int)
  | keyPress (ts key_str : String)
  | windowPoll (q : WinQuery)
deriving Repr

/-- The transition of one operation on the observer state. -/
def stepOp (cfg : ObserverConfig) (st : ObserverState) : Op → ObserverState
  | .opStart sid startTime host user osd =>
      ActivityObserver.start cfg sid startTime host user osd st
  | .opStop => ActivityObserver.stop st
  | .uploadTick w newId env => ActivityObserver.upload_tick cfg w newId env st
  | .mouseMove now ts x y => ActivityObserver.on_mouse_move cfg now ts x y st
  | .mouseClick ts x y b p => ActivityObserver.on_mouse_click ts x y b p st
  | .mouseScroll ts x y dx dy => ActivityObserver.on_mouse_scroll ts x y dx dy st
  | .keyPress ts k => ActivityObserver.on_key_press ts k st
  | .windowPoll q =>
      { st with current_window := window_monitor_step q st.current_window }

/-- The state after running a sequence of operations from a freshly
constructed observer. -/
def run (cfg : ObserverConfig) (ops : List Op) : ObserverState :=
  ops.foldl (stepOp cfg) initState

/-! Basic lemmas about the disk model. -/

theorem diskGet_append_same (d : Disk) (p line : String) :
    diskGet (diskAppend d p line) p = (diskGet d p).map (fun c => c ++ [line]) := by
  induction d with
  | nil => rfl
  | cons e d ih =>
      by_cases hep : e.1 = p
      · simp [diskAppend, diskGet, hep]
      · simpa [diskAppend, diskGet, hep] using ih

theorem diskGet_append_other (d : Disk) {p q : String} (line : String)
    (hq : q ≠ p) : diskGet (diskAppend d p line) q = diskGet d q := by
  induction d with
  | nil => rfl
  | cons e d ih =>
      by_cases hep : e.1 = p
      · have heq : ¬ e.1 = q := fun h => hq (h ▸ hep)
        simpa [diskAppend, diskGet, hep, heq, hq, Ne.symm hq] using ih
      · by_cases heq : e.1 = q
        · simp [diskAppend, diskGet, hep, heq, hq, Ne.symm hq]
        · simpa [diskAppend, diskGet, hep, heq, hq, Ne.symm hq] using ih

theorem diskGet_ensure_same (d : Disk) (p : String) :
    diskGet (diskEnsure d p) p = some ((diskGet d p).getD []) := by
  by_cases hp : (diskGet d p).isSome
  · obtain ⟨c, hc⟩ := Option.isSome_iff_exists.mp hp
    simp [diskEnsure, hp, hc]
  · have hnone : diskGet d p = none := Option.not_isSome_iff_eq_none.mp hp
    have key : ∀ d2 : Disk, diskGet d2 p = none →
        diskGet (d2 ++ [(p, [])]) p = some [] := by
      intro d2 h2
      induction d2 with
      | nil => simp [diskGet]
      | cons e d2 ih =>
          by_cases hep : e.1 = p
          · simp [diskGet, hep] at h2
          · simp [diskGet, hep] at h2 ⊢
            exact ih h2
    simp [diskEnsure, hp, hnone, key d hnone]

theorem diskGet_ensure_other (d : Disk) {p q : String} (hq : q ≠ p) :
    diskGet (diskEnsure d p) q = diskGet d q := by
  by_cases hp : (diskGet d p).isSome
  · simp [diskEnsure, hp]
  · have key : ∀ d2 : Disk, diskGet (d2 ++ [(p, [])]) q = diskGet d2 q := by
      intro d2
      induction d2 with
      | nil => simp [diskGet, Ne.symm hq]
      | cons e d2 ih =>
          by_cases heq : e.1 = q
          · simp [diskGet, heq]
          · simpa [diskGet, heq] using ih
    simp [diskEnsure, hp, key d]

theorem diskGet_erase_same (d : Disk) (p : String) :
    diskGet (diskErase d p) p = none := by
  induction d with
  | nil => rfl
  | cons e d ih =>
      by_cases hep : e.1 = p
      · simpa [diskErase, hep] using ih
      · simpa [diskErase, diskGet, hep] using ih

theorem diskGet_erase_other (d : Disk) {p q : String} (hq : q ≠ p) :
    diskGet (diskErase d p) q = diskGet d q := by
  induction d with
  | nil => rfl
  | cons e d ih =>
      by_cases hep : e.1 = p
      · have heq : ¬ e.1 = q := fun h => hq (h ▸ hep)
        simpa [diskErase, diskGet, hep, heq, hq, Ne.symm hq] using ih
      · by_cases heq : e.1 = q
        · simp [diskErase, diskGet, hep, heq, hq, Ne.symm hq]
        · simpa [diskErase, diskGet, hep, heq, hq, Ne.symm hq] using ih

/-! Concrete sample data used by the witness theorems below. -/

/-- A default-configured observer. -/
def cfg0 : ObserverConfig := {}

/-- Session metadata as the first `start()` of `opsRec` creates it. -/
def sessRec : SessionMetadata :=
  { session_id := "sid-1"
    start_time_utc := "2026-01-01T00:00:00+00:00"
    hostname := "host"
    username := "user"
    os := "Linux 6"
    output_file := segmentPath cfg0 "sid-1" }

/-- A concrete recording state: a fresh observer after one `start()` and
one window poll that found a window. -/
def stRec : ObserverState :=
  stepOp cfg0
    (ActivityObserver.start cfg0 "sid-1" "2026-01-01T00:00:00+00:00"
      "host" "user" "Linux 6" initState)
    (.windowPoll (.found "Editor" 800 600))

/-! ## C1 — the event-write contract -/

/-- Helper: the one-step effect of `_write_event` on a recording state
with its session and log handle exposed. -/
theorem write_event_eq (ts et : String) (payload : Dict) (st : ObserverState)
    (sess : SessionMetadata) (h : FileHandle) (hrec : st.is_recording = true)
    (hsess : st.session = some sess) (hlog : st.log_file = some h) :
    ActivityObserver.write_event ts et payload st =
      { st with
        disk := diskAppend st.disk h.path
          (Event.to_json
            { session_id := sess.session_id
              timestamp := ts
              event_type := et
              data := pyUpdate payload st.current_window } ++ "\n")
        event_count := st.event_count + 1 } := by
  simp [ActivityObserver.write_event, hrec, hsess, hlog]

/-- C1: `_write_event(event_type, payload)` is a silent no-op when the
observer is not recording.  When it is recording (with the session and
log handle that every recording state carries), it appends exactly one
newline-terminated JSON record to the open segment — fields `session_id`
(the session's id), `timestamp`, `event_type` (the given tag), and `data`
the given payload merged with the current window-context snapshot —
increments the event counter by exactly one, and leaves every other file
and every other attribute unchanged. -/
theorem C1_write_event_contract (ts et : String) (payload : Dict)
    (st : ObserverState) :
    (st.is_recording = false → ActivityObserver.write_event ts et payload st = st) ∧
    (∀ sess h, st.is_recording = true → st.session = some sess →
      st.log_file = some h →
      ActivityObserver.write_event ts et payload st =
        { st with
          disk := diskAppend st.disk h.path
            (Event.to_json
              { session_id := sess.session_id
                timestamp := ts
                event_type := et
                data := pyUpdate payload st.current_window } ++ "\n")
          event_count := st.event_count + 1 } ∧
      diskGet (ActivityObserver.write_event ts et payload st).disk h.path =
        (diskGet st.disk h.path).map (fun c => c ++
          [Event.to_json
            { session_id := sess.session_id
              timestamp := ts
              event_type := et
              data := pyUpdate payload st.current_window } ++ "\n"]) ∧
      (∀ q, q ≠ h.path →
        diskGet (ActivityObserver.write_event ts et payload st).disk q =
          diskGet st.disk q) ∧
      (ActivityObserver.write_event ts et payload st).event_count =
        st.event_count + 1) := by
  constructor
  · intro hnot
    simp [ActivityObserver.write_event, hnot]
  · intro sess h hrec hsess hlog
    have hw := write_event_eq ts et payload st sess h hrec hsess hlog
    refine ⟨hw, ?_, ?_, ?_⟩
    · rw [hw]
      exact diskGet_append_same st.disk h.path _
    · intro q hq
      rw [hw]
      exact diskGet_append_other st.disk _ hq
    · rw [hw]

/-- Witness for C1: on a fresh (stopped) observer a key-press write
changes nothing; on the concrete recording state `stRec` it bumps the
counter and appends exactly the predicted JSON line. -/
theorem C1_write_event_contract_witness :
    (ActivityObserver.write_event "2026-01-01T00:00:01+00:00" "key_press"
        [("key", JValue.s "a")] initState = initState) ∧
    diskGet (ActivityObserver.write_event "2026-01-01T00:00:01+00:00"
        "key_press" [("key", JValue.s "a")] stRec).disk sessRec.output_file =
      some [Event.to_json
        { session_id := "sid-1"
          timestamp := "2026-01-01T00:00:01+00:00"
          event_type := "key_press"
          data := pyUpdate [("key", JValue.s "a")] stRec.current_window } ++ "\n"] := by
  constructor
  · exact (C1_write_event_contract _ _ _ initState).1 rfl
  · have h := ((C1_write_event_contract "2026-01-01T00:00:01+00:00"
      "key_press" [("key", JValue.s "a")] stRec).2
      sessRec { path := sessRec.output_file, isOpen := true } rfl rfl rfl).2.1
    rw [h]
    rfl

/-! ## C2 — the rotation tick of the upload-scheduler loop -/

/-- C2: one `_upload_scheduler` tick.  A stop signal during the interval
wait exits the loop with no rotation; a tick while not recording is
skipped.  Otherwise the tick closes the current segment, opens a
brand-new file `session_<newId>.jsonl`, publishes it as the session's
active `output_file` and as the open log handle, leaves the event counter
and window snapshot alone, and hands the old path to the uploader (whose
effect is the only further disk change); after the swap, any write
appends to the new segment and leaves the old path's content untouched. -/
theorem C2_upload_tick_rotation (cfg : ObserverConfig) (stopW : Bool)
    (newId : String) (env : ActivityObserver.UploadEnv) (st : ObserverState) :
    (stopW = true → ActivityObserver.upload_tick cfg stopW newId env st = st) ∧
    (st.is_recording = false →
      ActivityObserver.upload_tick cfg stopW newId env st = st) ∧
    (∀ sess, stopW = false → st.is_recording = true → st.session = some sess →
      (ActivityObserver.upload_tick cfg stopW newId env st).log_file =
        some { path := segmentPath cfg newId, isOpen := true } ∧
      (ActivityObserver.upload_tick cfg stopW newId env st).session =
        some { sess with output_file := segmentPath cfg newId } ∧
      (ActivityObserver.upload_tick cfg stopW newId env st).is_recording = true ∧
      (ActivityObserver.upload_tick cfg stopW newId env st).event_count =
        st.event_count ∧
      (ActivityObserver.upload_tick cfg stopW newId env st).current_window =
        st.current_window ∧
      (ActivityObserver.upload_tick cfg stopW newId env st).disk =
        ActivityObserver.upload_file env
          (diskEnsure st.disk (segmentPath cfg newId)) sess.output_file ∧
      (∀ ts et payload, segmentPath cfg newId ≠ sess.output_file →
        diskGet (ActivityObserver.write_event ts et payload
            (ActivityObserver.upload_tick cfg stopW newId env st)).disk
            sess.output_file =
          diskGet (ActivityObserver.upload_tick cfg stopW newId env st).disk
            sess.output_file ∧
        diskGet (ActivityObserver.write_event ts et payload
            (ActivityObserver.upload_tick cfg stopW newId env st)).disk
            (segmentPath cfg newId) =
          (diskGet (ActivityObserver.upload_tick cfg stopW newId env st).disk
              (segmentPath cfg newId)).map (fun c => c ++
            [Event.to_json
              { session_id := sess.session_id
                timestamp := ts
                event_type := et
                data := pyUpdate payload st.current_window } ++ "\n"]))) := by
  refine ⟨?_, ?_, ?_⟩
  · intro hw
    simp [ActivityObserver.upload_tick, hw]
  · intro hnr
    simp [ActivityObserver.upload_tick, hnr]
  · intro sess hw hrec hsess
    have ht : ActivityObserver.upload_tick cfg stopW newId env st =
        { st with
          session := some { sess with output_file := segmentPath cfg newId }
          log_file := some { path := segmentPath cfg newId, isOpen := true }
          disk := ActivityObserver.upload_file env
            (diskEnsure st.disk (segmentPath cfg newId)) sess.output_file } := by
      simp [ActivityObserver.upload_tick, hw, hrec, hsess]
    refine ⟨by rw [ht], by rw [ht], by rw [ht]; exact hrec, by rw [ht],
      by rw [ht], by rw [ht], ?_⟩
    intro ts et payload hne
    have hw := write_event_eq ts et payload
      (ActivityObserver.upload_tick cfg stopW newId env st)
      { sess with output_file := segmentPath cfg newId }
      { path := segmentPath cfg newId, isOpen := true }
      (by rw [ht]; exact hrec) (by rw [ht]) (by rw [ht])
    have hcw : (ActivityObserver.upload_tick cfg stopW newId env st).current_window =
        st.current_window := by rw [ht]
    rw [hcw] at hw
    constructor
    · rw [hw]
      exact diskGet_append_other _ _ (Ne.symm hne)
    · rw [hw]
      exact diskGet_append_same _ _ _

/-- Witness for C2: rotating the concrete recording state `stRec` with
fresh id `sid-2` (transfer endpoint answering 500, so the old segment
stays on disk) publishes the new segment as the open log file, and a key
press written after the swap lands in the new segment while the old
segment keeps its (empty) content. -/
theorem C2_upload_tick_rotation_witness :
    (ActivityObserver.upload_tick cfg0 false "sid-2"
        { postResult := .ok 200, uploadUrl := .ok "https://x",
          putResult := .ok 500 } stRec).log_file =
      some { path := segmentPath cfg0 "sid-2", isOpen := true } ∧
    diskGet (ActivityObserver.write_event "T" "key_press"
        [("key", JValue.s "a")]
        (ActivityObserver.upload_tick cfg0 false "sid-2"
          { postResult := .ok 200, uploadUrl := .ok "https://x",
            putResult := .ok 500 } stRec)).disk sessRec.output_file =
      diskGet (ActivityObserver.upload_tick cfg0 false "sid-2"
        { postResult := .ok 200, uploadUrl := .ok "https://x",
          putResult := .ok 500 } stRec).disk sessRec.output_file := by
  have h := (C2_upload_tick_rotation cfg0 false "sid-2"
    { postResult := .ok 200, uploadUrl := .ok "https://x",
      putResult := .ok 500 } stRec).2.2 sessRec rfl rfl rfl
  exact ⟨h.1, (h.2.2.2.2.2.2 "T" "key_press" [("key", JValue.s "a")]
    (by decide)).1⟩

/-! ## C3 — mouse-move throttling -/

/-- Helper: a move inside the throttle window only stores the cursor. -/
theorem on_mouse_move_drop (cfg : ObserverConfig) (now : ℚ) (ts : String)
    (x y : Int) (st : ObserverState)
    (h : (now - st.last_mouse_time) * 1000 < cfg.mouse_throttle_ms) :
    ActivityObserver.on_mouse_move cfg now ts x y st =
      { st with last_cursor_pos := (x, y) } := by
  simp [ActivityObserver.on_mouse_move, h]

/-- Helper: a move at or past the throttle bound resets the throttle
clock and performs the write. -/
theorem on_mouse_move_accept (cfg : ObserverConfig) (now : ℚ) (ts : String)
    (x y : Int) (st : ObserverState)
    (h : ¬ (now - st.last_mouse_time) * 1000 < cfg.mouse_throttle_ms) :
    ActivityObserver.on_mouse_move cfg now ts x y st =
      ActivityObserver.write_event ts "mouse_move" [("x", .n x), ("y", .n y)]
        { st with last_cursor_pos := (x, y), last_mouse_time := now } := by
  simp [ActivityObserver.on_mouse_move, h]

/-- C3: while recording, a mouse move is written (the counter grows by
one) exactly when at least `mouse_throttle_ms` milliseconds have elapsed
since the last accepted move, and the throttle clock moves to `now`
exactly on acceptance; clicks and scrolls go straight to `_write_event`
with no throttle check and are always written while recording.  For
moves at times `t`, `t+50ms`, `t+260ms` against the default 250 ms
throttle, exactly the first and the third are written. -/
theorem C3_mouse_move_throttle (cfg : ObserverConfig) (now : ℚ)
    (ts : String) (x y : Int) (st : ObserverState) (sess : SessionMetadata)
    (h : FileHandle) (hrec : st.is_recording = true)
    (hsess : st.session = some sess) (hlog : st.log_file = some h) :
    ((ActivityObserver.on_mouse_move cfg now ts x y st).event_count =
        st.event_count + 1 ↔
      cfg.mouse_throttle_ms ≤ (now - st.last_mouse_time) * 1000) ∧
    ((ActivityObserver.on_mouse_move cfg now ts x y st).last_mouse_time =
        if cfg.mouse_throttle_ms ≤ (now - st.last_mouse_time) * 1000 then now
        else st.last_mouse_time) ∧
    (∀ button pressed,
      ActivityObserver.on_mouse_click ts x y button pressed st =
        ActivityObserver.write_event ts "mouse_click"
          [("x", .n x), ("y", .n y), ("button", .s button),
           ("action", .s (if pressed then "pressed" else "released"))] st ∧
      (ActivityObserver.on_mouse_click ts x y button pressed st).event_count =
        st.event_count + 1) ∧
    (∀ dx dy,
      ActivityObserver.on_mouse_scroll ts x y dx dy st =
        ActivityObserver.write_event ts "mouse_scroll"
          [("x", .n x), ("y", .n y), ("dx", .n dx), ("dy", .n dy)] st ∧
      (ActivityObserver.on_mouse_scroll ts x y dx dy st).event_count =
        st.event_count + 1) ∧
    (∀ t : ℚ, ∀ ts1 ts2 ts3 : String, ∀ x1 y1 x2 y2 x3 y3 : Int,
      cfg.mouse_throttle_ms = 250 →
      ¬ (t - st.last_mouse_time) * 1000 < 250 →
      (ActivityObserver.on_mouse_move cfg t ts1 x1 y1 st).event_count =
        st.event_count + 1 ∧
      (ActivityObserver.on_mouse_move cfg (t + 1/20) ts2 x2 y2
          (ActivityObserver.on_mouse_move cfg t ts1 x1 y1 st)).event_count =
        st.event_count + 1 ∧
      (ActivityObserver.on_mouse_move cfg (t + 13/50) ts3 x3 y3
          (ActivityObserver.on_mouse_move cfg (t + 1/20) ts2 x2 y2
            (ActivityObserver.on_mouse_move cfg t ts1 x1 y1 st))).event_count =
        st.event_count + 2) := by
  have hiff : ∀ now2 : ℚ, ∀ ts2 : String, ∀ x2 y2 : Int,
      ∀ st2 : ObserverState, st2.is_recording = true →
      st2.session = some sess → st2.log_file = some h →
      ((ActivityObserver.on_mouse_move cfg now2 ts2 x2 y2 st2).event_count =
          st2.event_count + 1 ↔
        cfg.mouse_throttle_ms ≤ (now2 - st2.last_mouse_time) * 1000) := by
    intro now2 ts2 x2 y2 st2 hrec2 hsess2 hlog2
    by_cases hc : (now2 - st2.last_mouse_time) * 1000 < cfg.mouse_throttle_ms
    · rw [on_mouse_move_drop cfg now2 ts2 x2 y2 st2 hc]
      simp [not_le.mpr hc]
    · rw [on_mouse_move_accept cfg now2 ts2 x2 y2 st2 hc,
        write_event_eq ts2 "mouse_move" [("x", .n x2), ("y", .n y2)]
          { st2 with last_cursor_pos := (x2, y2), last_mouse_time := now2 }
          sess h hrec2 hsess2 hlog2]
      simp [not_lt.mp hc]
  refine ⟨hiff now ts x y st hrec hsess hlog, ?_, ?_, ?_, ?_⟩
  · by_cases hc : (now - st.last_mouse_time) * 1000 < cfg.mouse_throttle_ms
    · rw [on_mouse_move_drop cfg now ts x y st hc, if_neg (not_le.mpr hc)]
    · rw [on_mouse_move_accept cfg now ts x y st hc,
        write_event_eq ts "mouse_move" [("x", .n x), ("y", .n y)]
          { st with last_cursor_pos := (x, y), last_mouse_time := now }
          sess h hrec hsess hlog,
        if_pos (not_lt.mp hc)]
  · intro button pressed
    refine ⟨rfl, ?_⟩
    rw [ActivityObserver.on_mouse_click,
      write_event_eq _ _ _ _ sess h hrec hsess hlog]
  · intro dx dy
    refine ⟨rfl, ?_⟩
    rw [ActivityObserver.on_mouse_scroll,
      write_event_eq _ _ _ _ sess h hrec hsess hlog]
  · intro t ts1 ts2 ts3 x1 y1 x2 y2 x3 y3 hthr hfirst
    rw [hthr] at hiff
    have h1 : ActivityObserver.on_mouse_move cfg t ts1 x1 y1 st =
        ActivityObserver.write_event ts1 "mouse_move"
          [("x", .n x1), ("y", .n y1)]
          { st with last_cursor_pos := (x1, y1), last_mouse_time := t } :=
      on_mouse_move_accept cfg t ts1 x1 y1 st (by rw [hthr]; exact hfirst)
    have hst1 := write_event_eq ts1 "mouse_move" [("x", .n x1), ("y", .n y1)]
      { st with last_cursor_pos := (x1, y1), last_mouse_time := t }
      sess h hrec hsess hlog
    rw [hst1] at h1
    have h2 : ActivityObserver.on_mouse_move cfg (t + 1/20) ts2 x2 y2
        (ActivityObserver.on_mouse_move cfg t ts1 x1 y1 st) =
        { ActivityObserver.on_mouse_move cfg t ts1 x1 y1 st with
          last_cursor_pos := (x2, y2) } := by
      apply on_mouse_move_drop
      rw [h1, hthr]
      show (t + 1/20 - t) * 1000 < 250
      norm_num
    have h3 : (ActivityObserver.on_mouse_move cfg (t + 13/50) ts3 x3 y3
        (ActivityObserver.on_mouse_move cfg (t + 1/20) ts2 x2 y2
          (ActivityObserver.on_mouse_move cfg t ts1 x1 y1 st))).event_count =
        (ActivityObserver.on_mouse_move cfg (t + 1/20) ts2 x2 y2
          (ActivityObserver.on_mouse_move cfg t ts1 x1 y1 st)).event_count + 1 := by
      rw [hiff _ ts3 x3 y3 _ (by rw [h2, h1]; exact hrec)
        (by rw [h2, h1]; exact hsess) (by rw [h2, h1]; exact hlog)]
      rw [h2, h1]
      show (250 : ℚ) ≤ (t + 13/50 - t) * 1000
      norm_num
    refine ⟨by rw [h1], ?_, ?_⟩
    · rw [h2, h1]
    · rw [h3, h2, h1]

/-- Witness for C3: from the concrete recording state `stRec` (throttle
clock at 0), a move at `t = 1000` is written, and of the triple
`1000, 1000+50ms, 1000+260ms` exactly the first and third are written:
the counter reads 1, 1, 2 along the chain. -/
theorem C3_mouse_move_throttle_witness :
    ((ActivityObserver.on_mouse_move cfg0 1000 "T1" 5 6 stRec).event_count =
        stRec.event_count + 1 ↔
      cfg0.mouse_throttle_ms ≤ (1000 - stRec.last_mouse_time) * 1000) ∧
    (ActivityObserver.on_mouse_move cfg0 1000 "T1" 5 6 stRec).event_count =
      stRec.event_count + 1 ∧
    (ActivityObserver.on_mouse_move cfg0 (1000 + 1/20) "T2" 7 8
        (ActivityObserver.on_mouse_move cfg0 1000 "T1" 5 6 stRec)).event_count =
      stRec.event_count + 1 ∧
    (ActivityObserver.on_mouse_move cfg0 (1000 + 13/50) "T3" 9 10
        (ActivityObserver.on_mouse_move cfg0 (1000 + 1/20) "T2" 7 8
          (ActivityObserver.on_mouse_move cfg0 1000 "T1" 5 6 stRec))).event_count =
      stRec.event_count + 2 := by
  have hlast : stRec.last_mouse_time = 0 := rfl
  have hfirst : ¬ ((1000 : ℚ) - stRec.last_mouse_time) * 1000 < 250 := by
    rw [hlast]; norm_num
  have h := C3_mouse_move_throttle cfg0 1000 "T1" 5 6 stRec sessRec
    { path := sessRec.output_file, isOpen := true } rfl rfl rfl
  have htriple := h.2.2.2.2 1000 "T1" "T2" "T3" 5 6 7 8 9 10 rfl hfirst
  exact ⟨h.1, htriple.1, htriple.2.1, htriple.2.2⟩

/-! ## C4 — the upload contract -/

/-- C4: `_upload_file(path)` is a no-op when the file does not exist; a
non-200 destination response abandons the attempt with the file kept; a
granted destination followed by a 200 transfer deletes the local file; a
transfer with any other status keeps it; a raised exception at any of the
three external steps is caught and keeps the disk unchanged; and in every
case the call returns normally with the disk either untouched or the one
file deleted — no failure propagates to the rotation loop. -/
theorem C4_upload_file_contract (env : ActivityObserver.UploadEnv)
    (d : Disk) (p : String) :
    (diskGet d p = none → ActivityObserver.upload_file env d p = d) ∧
    (∀ s, env.postResult = .ok s → s ≠ 200 →
      ActivityObserver.upload_file env d p = d) ∧
    (∀ url, env.postResult = .ok 200 → env.uploadUrl = .ok url →
      env.putResult = .ok 200 →
      ActivityObserver.upload_file env d p = diskErase d p ∧
      diskGet (ActivityObserver.upload_file env d p) p = none) ∧
    (∀ url s, env.postResult = .ok 200 → env.uploadUrl = .ok url →
      env.putResult = .ok s → s ≠ 200 →
      ActivityObserver.upload_file env d p = d) ∧
    (env.postResult = .error () → ActivityObserver.upload_file env d p = d) ∧
    (env.uploadUrl = .error () → ActivityObserver.upload_file env d p = d) ∧
    (env.putResult = .error () → ActivityObserver.upload_file env d p = d) ∧
    (ActivityObserver.upload_file env d p = d ∨
      ActivityObserver.upload_file env d p = diskErase d p) := by
  by_cases hex : (diskGet d p).isSome
  · refine ⟨fun hnone => by simp [hnone] at hex, ?_, ?_, ?_, ?_, ?_, ?_, ?_⟩
    · intro s hpost hs
      simp [ActivityObserver.upload_file, ActivityObserver.upload_body,
        Except.bind, Bind.bind, Except.pure, Pure.pure, hex, hpost, hs]
    · intro u hpost hurl hput
      refine ⟨?_, ?_⟩
      · simp [ActivityObserver.upload_file, ActivityObserver.upload_body,
          Except.bind, Bind.bind, Except.pure, Pure.pure, hex, hpost, hurl, hput]
      · simp [ActivityObserver.upload_file, ActivityObserver.upload_body,
          Except.bind, Bind.bind, Except.pure, Pure.pure, hex, hpost, hurl,
          hput, diskGet_erase_same]
    · intro u s hpost hurl hput hs
      simp [ActivityObserver.upload_file, ActivityObserver.upload_body,
        Except.bind, Bind.bind, Except.pure, Pure.pure, hex, hpost, hurl,
        hput, hs]
    · intro hpost
      simp [ActivityObserver.upload_file, ActivityObserver.upload_body,
        Except.bind, Bind.bind, Except.pure, Pure.pure, hex, hpost]
    · intro hurl
      rcases hp : env.postResult with hperr | s
      · simp [ActivityObserver.upload_file, ActivityObserver.upload_body,
          Except.bind, Bind.bind, Except.pure, Pure.pure, hex, hp]
      · by_cases hs : s = 200
        · subst hs
          simp [ActivityObserver.upload_file, ActivityObserver.upload_body,
            Except.bind, Bind.bind, Except.pure, Pure.pure, hex, hp, hurl]
        · simp [ActivityObserver.upload_file, ActivityObserver.upload_body,
            Except.bind, Bind.bind, Except.pure, Pure.pure, hex, hp, hs]
    · intro hput
      rcases hp : env.postResult with hperr | s
      · simp [ActivityObserver.upload_file, ActivityObserver.upload_body,
          Except.bind, Bind.bind, Except.pure, Pure.pure, hex, hp]
      · by_cases hs : s = 200
        · subst hs
          rcases hu : env.uploadUrl with huerr | u
          · simp [ActivityObserver.upload_file, ActivityObserver.upload_body,
              Except.bind, Bind.bind, Except.pure, Pure.pure, hex, hp, hu]
          · simp [ActivityObserver.upload_file, ActivityObserver.upload_body,
              Except.bind, Bind.bind, Except.pure, Pure.pure, hex, hp, hu, hput]
        · simp [ActivityObserver.upload_file, ActivityObserver.upload_body,
            Except.bind, Bind.bind, Except.pure, Pure.pure, hex, hp, hs]
    · rcases hp : env.postResult with hperr | s
      · left
        simp [ActivityObserver.upload_file, ActivityObserver.upload_body,
          Except.bind, Bind.bind, Except.pure, Pure.pure, hex, hp]
      · by_cases hs : s = 200
        · subst hs
          rcases hu : env.uploadUrl with huerr | u
          · left
            simp [ActivityObserver.upload_file, ActivityObserver.upload_body,
              Except.bind, Bind.bind, Except.pure, Pure.pure, hex, hp, hu]
          · rcases hq : env.putResult with hqerr | s2
            · left
              simp [ActivityObserver.upload_file, ActivityObserver.upload_body,
                Except.bind, Bind.bind, Except.pure, Pure.pure, hex, hp, hu, hq]
            · by_cases hs2 : s2 = 200
              · subst hs2
                right
                simp [ActivityObserver.upload_file, ActivityObserver.upload_body,
                  Except.bind, Bind.bind, Except.pure, Pure.pure, hex, hp, hu, hq]
              · left
                simp [ActivityObserver.upload_file, ActivityObserver.upload_body,
                  Except.bind, Bind.bind, Except.pure, Pure.pure, hex, hp, hu,
                  hq, hs2]
        · left
          simp [ActivityObserver.upload_file, ActivityObserver.upload_body,
            Except.bind, Bind.bind, Except.pure, Pure.pure, hex, hp, hs]
  · have hnone : diskGet d p = none := Option.not_isSome_iff_eq_none.mp hex
    have hf : ActivityObserver.upload_file env d p = d := by
      simp [ActivityObserver.upload_file, hex]
    have herase : diskErase d p = d := by
      clear hf hex
      induction d with
      | nil => rfl
      | cons e d ih =>
          by_cases hep : e.1 = p
          · simp [diskGet, hep] at hnone
          · simp [diskGet, hep] at hnone
            simp [diskErase, hep, ih hnone]
    exact ⟨fun _ => hf, fun _ _ _ => hf,
      fun u _ _ _ => ⟨by rw [hf, herase], by rw [hf]; exact hnone⟩,
      fun _ _ _ _ _ _ => hf, fun _ => hf, fun _ => hf, fun _ => hf, .inl hf⟩

/-- Witness for C4 on the one-file disk `[("f", ["l"])]`: a granted
destination with a 200 transfer deletes the file; a 500 transfer keeps
it; a 403 destination response keeps it; a raised destination request
keeps it; and a missing file is a no-op. -/
theorem C4_upload_file_contract_witness :
    ActivityObserver.upload_file
        { postResult := .ok 200, uploadUrl := .ok "https://x",
          putResult := .ok 200 } [("f", ["l"])] "f" =
      diskErase [("f", ["l"])] "f" ∧
    ActivityObserver.upload_file
        { postResult := .ok 200, uploadUrl := .ok "https://x",
          putResult := .ok 500 } [("f", ["l"])] "f" = [("f", ["l"])] ∧
    ActivityObserver.upload_file
        { postResult := .ok 403, uploadUrl := .ok "https://x",
          putResult := .ok 200 } [("f", ["l"])] "f" = [("f", ["l"])] ∧
    ActivityObserver.upload_file
        { postResult := .error (), uploadUrl := .ok "https://x",
          putResult := .ok 200 } [("f", ["l"])] "f" = [("f", ["l"])] ∧
    ActivityObserver.upload_file
        { postResult := .ok 200, uploadUrl := .ok "https://x",
          putResult := .ok 200 } [] "f" = [] := by
  refine ⟨?_, ?_, ?_, ?_, ?_⟩
  · exact ((C4_upload_file_contract _ _ _).2.2.1 "https://x" rfl rfl rfl).1
  · exact (C4_upload_file_contract _ _ _).2.2.2.1 "https://x" 500 rfl rfl rfl
      (by decide)
  · exact (C4_upload_file_contract _ _ _).2.1 403 rfl (by decide)
  · exact (C4_upload_file_contract _ _ _).2.2.2.2.1 rfl
  · exact (C4_upload_file_contract _ _ _).1 rfl

/-! ## C5 — window-context polling on failure

The claim says a raised window query replaces the snapshot with all-null
fields.  The code's `except Exception: pass` does not touch
`self._current_window`, so the previous window's data survives a raised
query; only a query that returns `None` produces the all-null snapshot. -/

/-- Counterexample to C5: one poll iteration whose query raises leaves
the snapshot exactly as it was — still holding the previous window's
title and geometry, not all-null fields. -/
theorem C5_window_monitor_counterexample :
    window_monitor_step .raised
        [("window_title", .s "Editor"), ("window_width", .n 800),
         ("window_height", .n 600)] =
      [("window_title", .s "Editor"), ("window_width", .n 800),
       ("window_height", .n 600)] ∧
    window_monitor_step .raised
        [("window_title", .s "Editor"), ("window_width", .n 800),
         ("window_height", .n 600)] ≠ nullWindow := by
  exact ⟨rfl, by decide⟩

/-- C5 amended: one iteration of `_window_monitor_loop` replaces the
snapshot with the found window's title/width/height on success, replaces
it with the all-null dict when the query returns no active window, and on
a raised exception leaves the snapshot unchanged (stale data is kept, the
all-null replacement does not happen). -/
theorem C5_window_monitor_amended (cur : Dict) :
    (∀ t w h, window_monitor_step (.found t w h) cur =
      [("window_title", .s t), ("window_width", .n w),
       ("window_height", .n h)]) ∧
    window_monitor_step .noneActive cur = nullWindow ∧
    window_monitor_step .raised cur = cur :=
  ⟨fun _ _ _ => rfl, rfl, rfl⟩

/-! ## C6 — the file-handle/lifecycle invariant

`stop()` closes the file object but never assigns `self._log_file = None`,
so the attribute stays non-null with state `Stopped`; what does hold in
every reachable state is that the handle is OPEN exactly while recording. -/

/-- The invariant that actually holds of every reachable observer state:
an open log handle exists exactly while recording, and a recording state
always carries its session metadata. -/
def ObserverInv (st : ObserverState) : Prop :=
  ((∃ h2, st.log_file = some h2 ∧ h2.isOpen = true) ↔ st.is_recording = true) ∧
  (st.is_recording = true → st.session.isSome)

/-- Helper: `_write_event` only touches the disk and the counter. -/
theorem write_event_frame (ts et : String) (payload : Dict)
    (st : ObserverState) :
    (ActivityObserver.write_event ts et payload st).log_file = st.log_file ∧
    (ActivityObserver.write_event ts et payload st).is_recording =
      st.is_recording ∧
    (ActivityObserver.write_event ts et payload st).session = st.session ∧
    (ActivityObserver.write_event ts et payload st).current_window =
      st.current_window ∧
    (ActivityObserver.write_event ts et payload st).last_mouse_time =
      st.last_mouse_time ∧
    (ActivityObserver.write_event ts et payload st).last_cursor_pos =
      st.last_cursor_pos := by
  unfold ActivityObserver.write_event
  by_cases hr : st.is_recording <;>
    cases hs : st.session <;> cases hl : st.log_file <;> simp [hr, hs, hl]

/-- Helper: every single operation preserves `ObserverInv`. -/
theorem stepOp_preserves_inv (cfg : ObserverConfig) (st : ObserverState)
    (op : Op) (hinv : ObserverInv st) : ObserverInv (stepOp cfg st op) := by
  obtain ⟨hopen, hsess⟩ := hinv
  cases op with
  | opStart sid stime host user osd =>
      by_cases hr : st.is_recording
      · have hid : stepOp cfg st (.opStart sid stime host user osd) = st := by
          simp [stepOp, ActivityObserver.start, hr]
        rw [hid]
        exact ⟨hopen, hsess⟩
      · have hres : stepOp cfg st (.opStart sid stime host user osd) =
            { st with
              session := some
                { session_id := sid
                  start_time_utc := stime
                  hostname := host
                  username := user
                  os := osd
                  output_file := segmentPath cfg sid }
              disk := diskEnsure st.disk (segmentPath cfg sid)
              log_file := some { path := segmentPath cfg sid, isOpen := true }
              is_recording := true
              event_count := 0 } := by
          simp [stepOp, ActivityObserver.start, hr]
        rw [hres]
        refine ⟨⟨fun _ => rfl, fun _ => ?_⟩, fun _ => rfl⟩
        exact ⟨{ path := segmentPath cfg sid, isOpen := true }, rfl, rfl⟩
  | opStop =>
      by_cases hr : st.is_recording
      · have hres : stepOp cfg st .opStop =
            { st with
              is_recording := false
              log_file :=
                st.log_file.map (fun h3 => { h3 with isOpen := false }) } := by
          simp [stepOp, ActivityObserver.stop, hr]
        rw [hres]
        refine ⟨⟨?_, ?_⟩, ?_⟩
        · rintro ⟨h2, hh2, hopen2⟩
          simp only [Option.map_eq_some'] at hh2
          obtain ⟨h3, hh3, rfl⟩ := hh2
          simp at hopen2
        · intro hcontr
          simp at hcontr
        · intro hcontr
          simp at hcontr
      · have hid : stepOp cfg st .opStop = st := by
          simp [stepOp, ActivityObserver.stop, hr]
        rw [hid]
        exact ⟨hopen, hsess⟩
  | uploadTick stopW newId env =>
      by_cases hw : stopW
      · have hid : stepOp cfg st (.uploadTick stopW newId env) = st := by
          simp [stepOp, ActivityObserver.upload_tick, hw]
        rw [hid]
        exact ⟨hopen, hsess⟩
      · by_cases hr : st.is_recording
        · cases hs2 : st.session with
          | none =>
              have hid : stepOp cfg st (.uploadTick stopW newId env) = st := by
                simp [stepOp, ActivityObserver.upload_tick, hw, hr, hs2]
              rw [hid]
              exact ⟨hopen, hsess⟩
          | some sess =>
              have hres : stepOp cfg st (.uploadTick stopW newId env) =
                  { st with
                    session :=
                      some { sess with output_file := segmentPath cfg newId }
                    log_file :=
                      some { path := segmentPath cfg newId, isOpen := true }
                    disk := ActivityObserver.upload_file env
                      (diskEnsure st.disk (segmentPath cfg newId))
                      sess.output_file } := by
                simp [stepOp, ActivityObserver.upload_tick, hw, hr, hs2]
              rw [hres]
              refine ⟨⟨fun _ => hr, fun _ => ?_⟩, fun _ => rfl⟩
              exact ⟨{ path := segmentPath cfg newId, isOpen := true },
                rfl, rfl⟩
        · have hid : stepOp cfg st (.uploadTick stopW newId env) = st := by
            simp [stepOp, ActivityObserver.upload_tick, hw, hr]
          rw [hid]
          exact ⟨hopen, hsess⟩
  | mouseMove now ts x y =>
      have hframe := write_event_frame ts "mouse_move"
        [("x", .n x), ("y", .n y)]
        { st with last_cursor_pos := (x, y), last_mouse_time := now }
      by_cases hc : (now - st.last_mouse_time) * 1000 < cfg.mouse_throttle_ms
      · rw [stepOp, on_mouse_move_drop cfg now ts x y st hc]
        exact ⟨hopen, hsess⟩
      · rw [stepOp, on_mouse_move_accept cfg now ts x y st hc]
        refine ⟨?_, ?_⟩
        · rw [hframe.1, hframe.2.1]
          exact hopen
        · rw [hframe.2.1, hframe.2.2.1]
          exact hsess
  | mouseClick ts x y b p =>
      have hframe := write_event_frame ts "mouse_click"
        [("x", .n x), ("y", .n y), ("button", .s b),
         ("action", .s (if p then "pressed" else "released"))] st
      rw [stepOp, ActivityObserver.on_mouse_click]
      exact ⟨by rw [hframe.1, hframe.2.1]; exact hopen,
        by rw [hframe.2.1, hframe.2.2.1]; exact hsess⟩
  | mouseScroll ts x y dx dy =>
      have hframe := write_event_frame ts "mouse_scroll"
        [("x", .n x), ("y", .n y), ("dx", .n dx), ("dy", .n dy)] st
      rw [stepOp, ActivityObserver.on_mouse_scroll]
      exact ⟨by rw [hframe.1, hframe.2.1]; exact hopen,
        by rw [hframe.2.1, hframe.2.2.1]; exact hsess⟩
  | keyPress ts k =>
      have hframe := write_event_frame ts "key_press" [("key", .s k)] st
      rw [stepOp, ActivityObserver.on_key_press]
      exact ⟨by rw [hframe.1, hframe.2.1]; exact hopen,
        by rw [hframe.2.1, hframe.2.2.1]; exact hsess⟩
  | windowPoll q =>
      exact ⟨hopen, hsess⟩

/-- Helper: the invariant holds of every reachable state. -/
theorem run_inv (cfg : ObserverConfig) (ops : List Op) :
    ObserverInv (run cfg ops) := by
  rw [run]
  induction ops using List.reverseRecOn with
  | nil =>
      refine ⟨?_, ?_⟩ <;> simp [initState]
  | append_singleton ops op ih =>
      rw [List.foldl_append]
      exact stepOp_preserves_inv cfg _ op ih

/-- Counterexample to C6: after `start(); stop()` the observer is not
recording, yet the log-file attribute is not null — `stop()` closes the
file object but never clears the reference, so "handle non-null iff
Recording" fails, and "after stop() the handle is null" fails. -/
theorem C6_handle_counterexample :
    (run cfg0 [.opStart "s1" "T0" "h" "u" "os", .opStop]).is_recording =
      false ∧
    (run cfg0 [.opStart "s1" "T0" "h" "u" "os", .opStop]).log_file =
      some { path := segmentPath cfg0 "s1", isOpen := false } ∧
    (run cfg0 [.opStart "s1" "T0" "h" "u" "os", .opStop]).log_file ≠
      none := by
  refine ⟨rfl, rfl, by decide⟩

/-- C6 amended: in every reachable observer state an OPEN log handle
exists if and only if the state is Recording; `stop()` on a recording
state flips to Stopped and leaves the handle referenced but closed (it is
never reset to null). -/
theorem C6_handle_open_iff_recording (cfg : ObserverConfig) (ops : List Op) :
    ((∃ h2, (run cfg ops).log_file = some h2 ∧ h2.isOpen = true) ↔
      (run cfg ops).is_recording = true) ∧
    (∀ st : ObserverState, ∀ h2 : FileHandle, st.is_recording = true →
      st.log_file = some h2 →
      (ActivityObserver.stop st).is_recording = false ∧
      (ActivityObserver.stop st).log_file =
        some { h2 with isOpen := false }) := by
  refine ⟨(run_inv cfg ops).1, ?_⟩
  intro st h2 hrec hlog
  simp [ActivityObserver.stop, hrec, hlog]

/-- Witness for C6 (amended): on the singleton trace `start()` the handle
is open and the state recording; stopping the concrete recording state
`stRec` leaves the closed handle referenced. -/
theorem C6_handle_open_iff_recording_witness :
    ((∃ h2, (run cfg0 [.opStart "s1" "T0" "h" "u" "os"]).log_file =
        some h2 ∧ h2.isOpen = true) ↔
      (run cfg0 [.opStart "s1" "T0" "h" "u" "os"]).is_recording = true) ∧
    (ActivityObserver.stop stRec).is_recording = false ∧
    (ActivityObserver.stop stRec).log_file =
      some { path := sessRec.output_file, isOpen := false } := by
  refine ⟨(C6_handle_open_iff_recording cfg0
    [.opStart "s1" "T0" "h" "u" "os"]).1, ?_⟩
  exact (C6_handle_open_iff_recording cfg0 []).2 stRec
    { path := sessRec.output_file, isOpen := true } rfl rfl

/-! ## C7 — throttle state across a session restart

`start()` resets the event counter but never touches
`self._last_mouse_time`, so the throttle clock survives `stop(); start()`
and the new session's first move is throttled against the old session's
last accepted move. -/

/-- Helper: `stop()` immediately followed by `start()` keeps the window
snapshot, the cursor position and the throttle clock, and installs the
new session with a fresh open segment and a zeroed counter. -/
theorem restart_frame (cfg : ObserverConfig)
    (sid stime host user osd : String) (st : ObserverState) :
    (ActivityObserver.start cfg sid stime host user osd
        (ActivityObserver.stop st)).last_mouse_time = st.last_mouse_time ∧
    (ActivityObserver.start cfg sid stime host user osd
        (ActivityObserver.stop st)).current_window = st.current_window ∧
    (ActivityObserver.start cfg sid stime host user osd
        (ActivityObserver.stop st)).last_cursor_pos = st.last_cursor_pos ∧
    (ActivityObserver.start cfg sid stime host user osd
        (ActivityObserver.stop st)).is_recording = true ∧
    (ActivityObserver.start cfg sid stime host user osd
        (ActivityObserver.stop st)).session = some
      { session_id := sid
        start_time_utc := stime
        hostname := host
        username := user
        os := osd
        output_file := segmentPath cfg sid } ∧
    (ActivityObserver.start cfg sid stime host user osd
        (ActivityObserver.stop st)).log_file =
      some { path := segmentPath cfg sid, isOpen := true } ∧
    (ActivityObserver.start cfg sid stime host user osd
        (ActivityObserver.stop st)).event_count = 0 ∧
    (ActivityObserver.start cfg sid stime host user osd
        (ActivityObserver.stop st)).disk =
      diskEnsure st.disk (segmentPath cfg sid) := by
  by_cases hr : st.is_recording <;>
    simp [ActivityObserver.stop, ActivityObserver.start, hr]

/-- The restart trace refuting C7: a move accepted at `t = 1000 s` in
session one, then `stop(); start()`, then the new session's first move
100 ms later. -/
def opsC7 : List Op :=
  [.opStart "s1" "T0" "h" "u" "os", .mouseMove 1000 "T1" 5 6, .opStop,
   .opStart "s2" "T2" "h" "u" "os", .mouseMove (1000 + 1/10) "T3" 7 8]

/-- Counterexample to C7: in the trace `opsC7` the first mouse move of
the restarted session is dropped, not accepted — the new session's
counter stays 0, its segment stays empty, and the throttle clock still
holds the old session's `1000`. -/
theorem C7_throttle_reset_counterexample :
    (run cfg0 opsC7).event_count = 0 ∧
    diskGet (run cfg0 opsC7).disk (segmentPath cfg0 "s2") = some [] ∧
    (run cfg0 opsC7).last_mouse_time = 1000 := by
  have h1 : ¬ ((1000 : ℚ) -
      (run cfg0 [.opStart "s1" "T0" "h" "u" "os"]).last_mouse_time) * 1000 <
      cfg0.mouse_throttle_ms := by
    show ¬ ((1000 : ℚ) - 0) * 1000 < 250
    norm_num
  have e2 : run cfg0 [.opStart "s1" "T0" "h" "u" "os",
      .mouseMove 1000 "T1" 5 6] =
      ActivityObserver.write_event "T1" "mouse_move"
        [("x", .n 5), ("y", .n 6)]
        { run cfg0 [.opStart "s1" "T0" "h" "u" "os"] with
          last_cursor_pos := ((5 : Int), (6 : Int)),
          last_mouse_time := 1000 } :=
    on_mouse_move_accept cfg0 1000 "T1" 5 6 _ h1
  have e2b : run cfg0 [.opStart "s1" "T0" "h" "u" "os",
      .mouseMove 1000 "T1" 5 6] =
      { run cfg0 [.opStart "s1" "T0" "h" "u" "os"] with
        last_cursor_pos := ((5 : Int), (6 : Int))
        last_mouse_time := 1000
        disk := diskAppend
          (run cfg0 [.opStart "s1" "T0" "h" "u" "os"]).disk
          (segmentPath cfg0 "s1")
          (Event.to_json
            { session_id := "s1"
              timestamp := "T1"
              event_type := "mouse_move"
              data := pyUpdate [("x", .n 5), ("y", .n 6)]
                (run cfg0 [.opStart "s1" "T0" "h" "u" "os"]).current_window }
            ++ "\n")
        event_count :=
          (run cfg0 [.opStart "s1" "T0" "h" "u" "os"]).event_count + 1 } := by
    rw [e2, write_event_eq "T1" "mouse_move" [("x", .n 5), ("y", .n 6)] _
      { session_id := "s1"
        start_time_utc := "T0"
        hostname := "h"
        username := "u"
        os := "os"
        output_file := segmentPath cfg0 "s1" }
      { path := segmentPath cfg0 "s1", isOpen := true } rfl rfl rfl]
  have hframe := restart_frame cfg0 "s2" "T2" "h" "u" "os"
    (run cfg0 [.opStart "s1" "T0" "h" "u" "os", .mouseMove 1000 "T1" 5 6])
  have e4 : run cfg0 [.opStart "s1" "T0" "h" "u" "os",
      .mouseMove 1000 "T1" 5 6, .opStop, .opStart "s2" "T2" "h" "u" "os"] =
      ActivityObserver.start cfg0 "s2" "T2" "h" "u" "os"
        (ActivityObserver.stop (run cfg0 [.opStart "s1" "T0" "h" "u" "os",
          .mouseMove 1000 "T1" 5 6])) := rfl
  have hlmt4 : (run cfg0 [.opStart "s1" "T0" "h" "u" "os",
      .mouseMove 1000 "T1" 5 6, .opStop,
      .opStart "s2" "T2" "h" "u" "os"]).last_mouse_time = 1000 := by
    rw [e4, hframe.1, e2b]
  have hdrop : run cfg0 opsC7 =
      { run cfg0 [.opStart "s1" "T0" "h" "u" "os", .mouseMove 1000 "T1" 5 6,
          .opStop, .opStart "s2" "T2" "h" "u" "os"] with
        last_cursor_pos := ((7 : Int), (8 : Int)) } := by
    show ActivityObserver.on_mouse_move cfg0 (1000 + 1/10) "T3" 7 8
      (run cfg0 [.opStart "s1" "T0" "h" "u" "os", .mouseMove 1000 "T1" 5 6,
        .opStop, .opStart "s2" "T2" "h" "u" "os"]) = _
    apply on_mouse_move_drop
    rw [hlmt4]
    show ((1000 + 1/10 : ℚ) - 1000) * 1000 < cfg0.mouse_throttle_ms
    show ((1000 + 1/10 : ℚ) - 1000) * 1000 < 250
    norm_num
  refine ⟨?_, ?_, ?_⟩
  · rw [hdrop]
    show (run cfg0 [.opStart "s1" "T0" "h" "u" "os", .mouseMove 1000 "T1" 5 6,
      .opStop, .opStart "s2" "T2" "h" "u" "os"]).event_count = 0
    rw [e4, hframe.2.2.2.2.2.2.1]
  · rw [hdrop]
    show diskGet (run cfg0 [.opStart "s1" "T0" "h" "u" "os",
      .mouseMove 1000 "T1" 5 6, .opStop,
      .opStart "s2" "T2" "h" "u" "os"]).disk (segmentPath cfg0 "s2") = some []
    rw [e4, hframe.2.2.2.2.2.2.2, e2b]
    rfl
  · rw [hdrop]
    exact hlmt4

/-- C7 amended: `_last_mouse_time` survives `stop(); start()` unchanged,
so the first mouse move of the restarted session is accepted only when at
least `mouse_throttle_ms` has elapsed since the previous session's last
accepted move — not regardless of it: within the throttle window it is
dropped (the new session's counter stays 0), past it it is written. -/
theorem C7_throttle_not_reset (cfg : ObserverConfig)
    (sid2 stime host user osd : String) (now : ℚ) (ts : String) (x y : Int)
    (st : ObserverState) :
    (ActivityObserver.start cfg sid2 stime host user osd
        (ActivityObserver.stop st)).last_mouse_time = st.last_mouse_time ∧
    ((now - st.last_mouse_time) * 1000 < cfg.mouse_throttle_ms →
      (ActivityObserver.on_mouse_move cfg now ts x y
          (ActivityObserver.start cfg sid2 stime host user osd
            (ActivityObserver.stop st))).event_count = 0) ∧
    (¬ (now - st.last_mouse_time) * 1000 < cfg.mouse_throttle_ms →
      (ActivityObserver.on_mouse_move cfg now ts x y
          (ActivityObserver.start cfg sid2 stime host user osd
            (ActivityObserver.stop st))).event_count = 1) := by
  have hframe := restart_frame cfg sid2 stime host user osd st
  refine ⟨hframe.1, ?_, ?_⟩
  · intro hc
    rw [on_mouse_move_drop cfg now ts x y _ (by rw [hframe.1]; exact hc)]
    show (ActivityObserver.start cfg sid2 stime host user osd
      (ActivityObserver.stop st)).event_count = 0
    exact hframe.2.2.2.2.2.2.1
  · intro hc
    rw [on_mouse_move_accept cfg now ts x y _ (by rw [hframe.1]; exact hc),
      write_event_eq ts "mouse_move" [("x", .n x), ("y", .n y)]
        { ActivityObserver.start cfg sid2 stime host user osd
            (ActivityObserver.stop st) with
          last_cursor_pos := (x, y), last_mouse_time := now }
        { session_id := sid2
          start_time_utc := stime
          hostname := host
          username := user
          os := osd
          output_file := segmentPath cfg sid2 }
        { path := segmentPath cfg sid2, isOpen := true }
        hframe.2.2.2.1 hframe.2.2.2.2.1 hframe.2.2.2.2.2.1]
    show (ActivityObserver.start cfg sid2 stime host user osd
      (ActivityObserver.stop st)).event_count + 1 = 1
    rw [hframe.2.2.2.2.2.2.1]

/-- Witness for C7 (amended): restarting from a recording state whose
throttle clock reads 1000 s, a move 100 ms into the new session is
dropped: the new session's counter stays 0. -/
theorem C7_throttle_not_reset_witness :
    (ActivityObserver.start cfg0 "s2" "T2" "h" "u" "os"
        (ActivityObserver.stop
          { stRec with last_mouse_time := 1000 })).last_mouse_time = 1000 ∧
    (ActivityObserver.on_mouse_move cfg0 (1000 + 1/10) "T3" 7 8
        (ActivityObserver.start cfg0 "s2" "T2" "h" "u" "os"
          (ActivityObserver.stop
            { stRec with last_mouse_time := 1000 }))).event_count = 0 := by
  have h := C7_throttle_not_reset cfg0 "s2" "T2" "h" "u" "os" (1000 + 1/10)
    "T3" 7 8 { stRec with last_mouse_time := 1000 }
  refine ⟨h.1, h.2.1 ?_⟩
  show ((1000 + 1/10 : ℚ) - 1000) * 1000 < 250
  norm_num

/-! ## C8 — the screenshot scheduling window -/

/-- C8: one scheduler window started at `hour_start` on a draw with the
guarantees of `random.sample(range(20), 4)` (4 distinct offsets below 20)
fires exactly 4 captures, at pairwise distinct instants visited in
ascending order, one at `hour_start + o` for each drawn offset `o`, all
inside `[hour_start, hour_start + 20)`; the next window begins exactly at
`hour_start + 20`, never earlier.  With a stop signal at time `s`, every
capture fired lies strictly before `s` and the window ends by `s` (and
still never past `hour_start + 20`): every sleep is interruptible. -/
theorem C8_screenshot_scheduler (sample : List ℕ) (hour_start : ℚ)
    (hlen : sample.length = 4) (hnodup : sample.Nodup)
    (hub : ∀ o ∈ sample, o < 20) :
    (scheduler_window sample hour_start none).1.length = 4 ∧
    (scheduler_window sample hour_start none).1.Sorted (· < ·) ∧
    (∀ t ∈ (scheduler_window sample hour_start none).1,
      hour_start ≤ t ∧ t < hour_start + 20) ∧
    (∀ o ∈ sample,
      hour_start + (o : ℚ) ∈ (scheduler_window sample hour_start none).1) ∧
    (scheduler_window sample hour_start none).1.Nodup ∧
    (scheduler_window sample hour_start none).2 = hour_start + 20 ∧
    (∀ s : ℚ,
      (∀ t ∈ (scheduler_window sample hour_start (some s)).1, t < s) ∧
      (scheduler_window sample hour_start (some s)).2 ≤ max hour_start s ∧
      (scheduler_window sample hour_start (some s)).2 ≤ hour_start + 20) := by
  have hperm := List.perm_insertionSort (· ≤ ·) sample
  have hsortedNat : (sample.insertionSort (· ≤ ·)).Sorted (· ≤ ·) :=
    List.sorted_insertionSort (· ≤ ·) sample
  have hnodupSort : (sample.insertionSort (· ≤ ·)).Nodup :=
    hperm.nodup_iff.mpr hnodup
  have hsortedLt : (sample.insertionSort (· ≤ ·)).Sorted (· < ·) :=
    hsortedNat.lt_of_le hnodupSort
  have hcap : (scheduler_window sample hour_start none).1 =
      (sample.insertionSort (· ≤ ·)).map
        (fun o : ℕ => hour_start + (o : ℚ)) := rfl
  have hcapS : ∀ s : ℚ, (scheduler_window sample hour_start (some s)).1 =
      ((sample.insertionSort (· ≤ ·)).map
        (fun o : ℕ => hour_start + (o : ℚ))).filter (fun t => t < s) :=
    fun _ => rfl
  have hendS : ∀ s : ℚ, (scheduler_window sample hour_start (some s)).2 =
      min (hour_start + 20) (max hour_start s) := fun _ => rfl
  refine ⟨?_, ?_, ?_, ?_, ?_, rfl, ?_⟩
  · rw [hcap, List.length_map, hperm.length_eq, hlen]
  · rw [hcap]
    refine List.Pairwise.map _ ?_ hsortedLt
    intro a b hab
    have hq : (a : ℚ) < (b : ℚ) := by exact_mod_cast hab
    linarith
  · intro t ht
    rw [hcap] at ht
    rw [List.mem_map] at ht
    obtain ⟨o, ho, rfl⟩ := ht
    have homem : o ∈ sample := (List.mem_insertionSort _).mp ho
    have h20 : (o : ℚ) < 20 := by exact_mod_cast hub o homem
    have h0 : (0 : ℚ) ≤ (o : ℚ) := Nat.cast_nonneg o
    exact ⟨by linarith, by linarith⟩
  · intro o ho
    rw [hcap, List.mem_map]
    exact ⟨o, (List.mem_insertionSort _).mpr ho, rfl⟩
  · rw [hcap]
    refine List.Nodup.map ?_ hnodupSort
    intro a b hab
    have hq : (a : ℚ) = (b : ℚ) := by
      have := add_left_cancel hab
      exact this
    exact_mod_cast hq
  · intro s
    refine ⟨?_, ?_, ?_⟩
    · intro t ht
      rw [hcapS s] at ht
      rw [List.mem_filter] at ht
      exact of_decide_eq_true ht.2
    · rw [hendS s]
      exact min_le_right _ _
    · rw [hendS s]
      exact min_le_left _ _

/-- Witness for C8: the concrete draw `[7, 3, 19, 0]` (distinct, below
20) at `hour_start = 100` yields 4 captures, one at `100 + 7`, the window
ends exactly at `100 + 20`, and with a stop signal at `s = 105` every
fired capture lies before 105. -/
theorem C8_screenshot_scheduler_witness :
    (scheduler_window [7, 3, 19, 0] 100 none).1.length = 4 ∧
    (100 : ℚ) + ((7 : ℕ) : ℚ) ∈ (scheduler_window [7, 3, 19, 0] 100 none).1 ∧
    (scheduler_window [7, 3, 19, 0] 100 none).2 = 100 + 20 ∧
    (∀ t ∈ (scheduler_window [7, 3, 19, 0] 100 (some 105)).1, t < 105) := by
  have h := C8_screenshot_scheduler [7, 3, 19, 0] 100 (by decide) (by decide)
    (by decide)
  exact ⟨h.1, h.2.2.2.1 7 (by decide), h.2.2.2.2.2.1, (h.2.2.2.2.2.2 105).1⟩

/-! ## C9 — screenshot filename collisions

The filename is `screenshot_` plus `strftime("%Y%m%d_%H%M%S")`, which has
only one-second resolution and carries no disambiguating suffix, so two
captures inside the same wall-clock second build the same path and the
later `to_png` overwrites the earlier file. -/

/-- Counterexample to C9: two distinct capture instants inside the same
second (100 000 µs and 900 000 µs past `2026-01-02 03:04:05`) produce the
same output filename, and saving the second capture overwrites the first:
only the second image survives at that path. -/
theorem C9_screenshot_filename_counterexample :
    screenshot_filename cfg0
        { year := 2026, month := 1, day := 2, hour := 3, minute := 4,
          second := 5, micros := 100000 } =
      screenshot_filename cfg0
        { year := 2026, month := 1, day := 2, hour := 3, minute := 4,
          second := 5, micros := 900000 } ∧
    ({ year := 2026, month := 1, day := 2, hour := 3, minute := 4,
       second := 5, micros := 100000 } : WallClock) ≠
      { year := 2026, month := 1, day := 2, hour := 3, minute := 4,
        second := 5, micros := 900000 } ∧
    shotGet (save_screenshot (save_screenshot []
        (screenshot_filename cfg0
          { year := 2026, month := 1, day := 2, hour := 3, minute := 4,
            second := 5, micros := 100000 }) 1)
        (screenshot_filename cfg0
          { year := 2026, month := 1, day := 2, hour := 3, minute := 4,
            second := 5, micros := 900000 }) 2)
      (screenshot_filename cfg0
        { year := 2026, month := 1, day := 2, hour := 3, minute := 4,
          second := 5, micros := 100000 }) = some 2 := by
  refine ⟨rfl, by decide, by decide⟩

set_option linter.unnecessarySimpa false in
/-- Helper: saving a capture makes its filename hold exactly that image. -/
theorem shotGet_save (s : ShotStore) (name : String) (img : Nat) :
    shotGet (save_screenshot s name img) name = some img := by
  induction s with
  | nil => simp [save_screenshot, shotGet]
  | cons e s ih =>
      by_cases hep : e.1 = name
      · simpa [save_screenshot, hep] using ih
      · simpa [save_screenshot, shotGet, hep] using ih

/-- C9 amended: the generated filenames have only second resolution —
any two captures within the same wall-clock second (equal after dropping
the sub-second field) get the SAME filename, and the later capture's
`to_png` overwrites the earlier one: after both saves only the later
image is stored under the shared name.  Distinctness of successive
filenames holds only across different seconds, not within one. -/
theorem C9_filename_second_resolution (cfg : ObserverConfig)
    (t1 t2 : WallClock) (hsec : truncToSecond t1 = truncToSecond t2) :
    screenshot_filename cfg t1 = screenshot_filename cfg t2 ∧
    (∀ (shots : ShotStore) (img1 img2 : Nat),
      shotGet (save_screenshot (save_screenshot shots
          (screenshot_filename cfg t1) img1)
        (screenshot_filename cfg t2) img2)
        (screenshot_filename cfg t1) = some img2) := by
  obtain ⟨y1, mo1, d1, h1, mi1, s1, u1⟩ := t1
  obtain ⟨y2, mo2, d2, h2, mi2, s2, u2⟩ := t2
  simp only [truncToSecond, WallClock.mk.injEq] at hsec
  obtain ⟨hy, hmo, hd, hh, hmi, hs, -⟩ := hsec
  subst hy
  subst hmo
  subst hd
  subst hh
  subst hmi
  subst hs
  exact ⟨rfl, fun shots img1 img2 => shotGet_save _ _ _⟩

/-- Witness for C9 (amended): at the two concrete same-second instants of
the counterexample, the filenames agree and the second save wins. -/
theorem C9_filename_second_resolution_witness :
    screenshot_filename cfg0
        { year := 2026, month := 1, day := 2, hour := 3, minute := 4,
          second := 5, micros := 123 } =
      screenshot_filename cfg0
        { year := 2026, month := 1, day := 2, hour := 3, minute := 4,
          second := 5, micros := 999999 } ∧
    shotGet (save_screenshot (save_screenshot []
        (screenshot_filename cfg0
          { year := 2026, month := 1, day := 2, hour := 3, minute := 4,
            second := 5, micros := 123 }) 7)
        (screenshot_filename cfg0
          { year := 2026, month := 1, day := 2, hour := 3, minute := 4,
            second := 5, micros := 999999 }) 8)
      (screenshot_filename cfg0
        { year := 2026, month := 1, day := 2, hour := 3, minute := 4,
          second := 5, micros := 123 }) = some 8 := by
  have h := C9_filename_second_resolution cfg0
    { year := 2026, month := 1, day := 2, hour := 3, minute := 4,
      second := 5, micros := 123 }
    { year := 2026, month := 1, day := 2, hour := 3, minute := 4,
      second := 5, micros := 999999 } rfl
  exact ⟨h.1, h.2 [] 7 8⟩

/-! ## C10 — frame effect of a session restart -/

/-- C10: `start()` after `stop()` does not reset the window-context
snapshot or the last cursor position: the restarted observer carries the
previous session's values, the first event written before any fresh poll
merges the OLD window snapshot into its `data`, and the screenshot
monitor selection computed from the restarted state's cursor equals the
one computed from the previous session's cursor. -/
theorem C10_restart_keeps_window_and_cursor (cfg : ObserverConfig)
    (sid2 stime host user osd ts et : String) (payload : Dict)
    (st : ObserverState) (_hrec : st.is_recording = true) :
    (ActivityObserver.start cfg sid2 stime host user osd
        (ActivityObserver.stop st)).current_window = st.current_window ∧
    (ActivityObserver.start cfg sid2 stime host user osd
        (ActivityObserver.stop st)).last_cursor_pos = st.last_cursor_pos ∧
    diskGet (ActivityObserver.write_event ts et payload
        (ActivityObserver.start cfg sid2 stime host user osd
          (ActivityObserver.stop st))).disk (segmentPath cfg sid2) =
      (diskGet (ActivityObserver.start cfg sid2 stime host user osd
          (ActivityObserver.stop st)).disk (segmentPath cfg sid2)).map
        (fun c => c ++
          [Event.to_json
            { session_id := sid2
              timestamp := ts
              event_type := et
              data := pyUpdate payload st.current_window } ++ "\n"]) ∧
    (∀ monitors : List Monitor,
      select_monitor monitors
          (ActivityObserver.start cfg sid2 stime host user osd
            (ActivityObserver.stop st)).last_cursor_pos =
        select_monitor monitors st.last_cursor_pos) := by
  have hframe := restart_frame cfg sid2 stime host user osd st
  refine ⟨hframe.2.1, hframe.2.2.1, ?_, ?_⟩
  · rw [write_event_eq ts et payload
      (ActivityObserver.start cfg sid2 stime host user osd
        (ActivityObserver.stop st))
      { session_id := sid2
        start_time_utc := stime
        hostname := host
        username := user
        os := osd
        output_file := segmentPath cfg sid2 }
      { path := segmentPath cfg sid2, isOpen := true }
      hframe.2.2.2.1 hframe.2.2.2.2.1 hframe.2.2.2.2.2.1]
    rw [show (ActivityObserver.start cfg sid2 stime host user osd
      (ActivityObserver.stop st)).current_window = st.current_window
      from hframe.2.1]
    exact diskGet_append_same _ _ _
  · intro monitors
    rw [hframe.2.2.1]

/-- Witness for C10: restarting the concrete recording state `stRec`
(whose snapshot holds the "Editor" window and whose cursor sits at the
origin) keeps both values, and the first key press of the new session
carries the old snapshot in its merged `data`. -/
theorem C10_restart_keeps_window_and_cursor_witness :
    (ActivityObserver.start cfg0 "s2" "T2" "h" "u" "os"
        (ActivityObserver.stop stRec)).current_window =
      [("window_title", .s "Editor"), ("window_width", .n 800),
       ("window_height", .n 600)] ∧
    diskGet (ActivityObserver.write_event "T3" "key_press"
        [("key", JValue.s "a")]
        (ActivityObserver.start cfg0 "s2" "T2" "h" "u" "os"
          (ActivityObserver.stop stRec))).disk (segmentPath cfg0 "s2") =
      some [Event.to_json
        { session_id := "s2"
          timestamp := "T3"
          event_type := "key_press"
          data := pyUpdate [("key", JValue.s "a")]
            stRec.current_window } ++ "\n"] := by
  have h := C10_restart_keeps_window_and_cursor cfg0 "s2" "T2" "h" "u" "os"
    "T3" "key_press" [("key", JValue.s "a")] stRec rfl
  refine ⟨?_, ?_⟩
  · rw [h.1]
    rfl
  · rw [h.2.2.1]
    rfl

end ActivityTracker
